import Mathlib

/-! Verification of `project8x8/HAL.cpp`

`HAL.cpp` is a layer of bounds-checked entry points over the ESP32 peripheral
drivers (interrupt mask, LEDC/PWM, hardware timers, DAC).  Every entry point is
a `void` function whose only observable effects are

* the calls it makes into the vendor driver, and
* the four module-level timer handles `timer_0 .. timer_3`.

The embedding therefore threads an explicit state through every function: the
four handles plus the list of driver calls made so far, oldest first.  The one
driver routine whose return value the code uses, `timerBegin`, is a parameter
of the model.
-/

namespace HAL

/-! ## Values -/

/-- Value of a C `double`.  A finite value is the rational number it denotes
(every finite binary64 value is a dyadic rational, and the two zeros compare
equal); the three special values are kept apart. -/
inductive Double where
  | finite (q : ℚ)
  | posInf
  | negInf
  | nan
  deriving DecidableEq

namespace Double

/-- The comparison `a < b` on doubles: exact on finite values, and false as soon
as one operand is a NaN. -/
def lt : Double → Double → Bool
  | finite a, finite b => decide (a < b)
  | finite _, posInf => true
  | negInf, finite _ => true
  | negInf, posInf => true
  | _, _ => false

/-- Conversion of an `int` constant to `double` (exact for the constants that
occur in the source, `1` and `312500`). -/
def ofInt (n : Int) : Double := finite (n : ℚ)

end Double

/-- A `hw_timer_t*` pointer value; `NULL` is `0`. -/
abbrev Handle := Nat

/-- The null pointer. -/
def NULL : Handle := 0

/-- A `void (*)()` function pointer value. -/
abbrev Callback := Nat

/-- Range of a `uint8_t`. -/
def isUInt8 (n : Nat) : Prop := n < 2 ^ 8

/-- Range of a `uint16_t`. -/
def isUInt16 (n : Nat) : Prop := n < 2 ^ 16

/-- Range of a `uint64_t`. -/
def isUInt64 (n : Nat) : Prop := n < 2 ^ 64

instance (n : Nat) : Decidable (isUInt8 n) := inferInstanceAs (Decidable (n < 2 ^ 8))
instance (n : Nat) : Decidable (isUInt16 n) := inferInstanceAs (Decidable (n < 2 ^ 16))
instance (n : Nat) : Decidable (isUInt64 n) := inferInstanceAs (Decidable (n < 2 ^ 64))

/-! ## Integer expressions of `blockInterrupts` / `unblockInterrupts` -/

/-- The operator `a << k` on a non-negative `int` (no overflow for the operands
used in the source). -/
def intShl (a : Int) (k : Nat) : Int := a * 2 ^ k

/-- The operator `~a` on a two's complement `int`. -/
def intNot (a : Int) : Int := -a - 1

/-- Conversion of an `int` to the 32-bit `unsigned int` parameter of
`xt_ints_off` / `xt_ints_on`: reduction modulo `2^32`. -/
def toUInt32 (a : Int) : Nat := (a % 2 ^ 32).toNat

/-! ## Driver calls and state -/

/-- One call into the vendor driver, with the argument values as they are
written at the call site. -/
inductive DriverCall where
  | xt_ints_off (mask : Nat)
  | xt_ints_on (mask : Nat)
  | ledcSetup (chan : Nat) (freq : Double) (bit_num : Nat)
  | ledcWrite (chan : Nat) (duty : Nat)
  | ledcAttachPin (pin : Nat) (chan : Nat)
  | ledcDetachPin (pin : Nat)
  | timerBegin (num : Nat) (divider : Nat) (countUp : Bool)
  | timerAttachInterrupt (timer : Handle) (fn : Callback) (edge : Bool)
  | timerAlarmWrite (timer : Handle) (alarm_value : Nat) (autoreload : Bool)
  | timerAlarmEnable (timer : Handle)
  | timerEnd (timer : Handle)
  | dac_output_enable (channel : Nat)
  | dac_output_voltage (channel : Nat) (dac_value : Nat)
  deriving DecidableEq

/-- The part of the vendor driver whose result the code reads: the handle that
`timerBegin(num, divider, countUp)` returns, which may depend on every driver
call made before it. -/
structure Driver where
  timerBegin : List DriverCall → Nat → Nat → Bool → Handle

/-- The module state: the four global handles of `HAL.cpp` and the driver calls
made so far (oldest first). -/
structure State where
  timer_0 : Handle
  timer_1 : Handle
  timer_2 : Handle
  timer_3 : Handle
  trace : List DriverCall
  deriving DecidableEq

/-- State at program start: `timer_0 .. timer_3` are `NULL`, nothing was
called. -/
def State.init : State :=
  { timer_0 := NULL, timer_1 := NULL, timer_2 := NULL, timer_3 := NULL, trace := [] }

/-- Record one driver call. -/
def State.call (s : State) (c : DriverCall) : State :=
  { s with trace := s.trace ++ [c] }

/-- Call `timerBegin` and obtain the handle it returns. -/
def State.timerBegin (s : State) (drv : Driver) (num divider : Nat) (countUp : Bool) :
    Handle × State :=
  (drv.timerBegin s.trace num divider countUp, s.call (.timerBegin num divider countUp))

/-- Content of handle slot `i` (`timer_i`); used to state properties only. -/
def State.slot (s : State) : Nat → Handle
  | 0 => s.timer_0
  | 1 => s.timer_1
  | 2 => s.timer_2
  | 3 => s.timer_3
  | _ => NULL

/-- The four handle slots of two states agree. -/
def State.sameHandles (s t : State) : Prop :=
  t.timer_0 = s.timer_0 ∧ t.timer_1 = s.timer_1 ∧ t.timer_2 = s.timer_2 ∧ t.timer_3 = s.timer_3

instance (s t : State) : Decidable (State.sameHandles s t) :=
  inferInstanceAs (Decidable (_ ∧ _ ∧ _ ∧ _))

/-! ## The functions of `HAL.cpp` -/

/-- Embedding of `blockInterrupts`: `xt_ints_off(~(0b1 << 6));` -/
def blockInterrupts (s : State) : State :=
  s.call (.xt_ints_off (toUInt32 (intNot (intShl 0b1 6))))

/-- Embedding of `unblockInterrupts`: `xt_ints_on(0xFFFFFFFF);` -/
def unblockInterrupts (s : State) : State :=
  s.call (.xt_ints_on 0xFFFFFFFF)

/-- Embedding of `setupPwm`. -/
def setupPwm (chan : Nat) (freq : Double) (s : State) : State :=
  if freq.lt (Double.ofInt 1) || (Double.ofInt 312500).lt freq || decide (chan > 15) then s
  else s.call (.ledcSetup chan freq 8)

/-- Embedding of `setPwmDuty`. -/
def setPwmDuty (chan : Nat) (duty : Nat) (s : State) : State :=
  if chan > 15 then s
  else s.call (.ledcWrite chan duty)

/-- Embedding of `pwmAttachPin`. -/
def pwmAttachPin (chan : Nat) (pin : Nat) (s : State) : State :=
  if pin > 39 then s
  else s.call (.ledcAttachPin pin chan)

/-- Embedding of `pwmDetachPin`. -/
def pwmDetachPin (pin : Nat) (s : State) : State :=
  if pin > 39 then s
  else s.call (.ledcDetachPin pin)

/-- Embedding of `setUpTimer`. -/
def setUpTimer (drv : Driver) (timer_index : Nat) (f : Callback) (period : Nat)
    (s : State) : State :=
  match timer_index with
  | 0 =>
    let (h, s) := s.timerBegin drv timer_index 80 true
    let s := { s with timer_0 := h }
    let s := s.call (.timerAttachInterrupt s.timer_0 f true)
    s.call (.timerAlarmWrite s.timer_0 period true)
  | 1 =>
    let (h, s) := s.timerBegin drv timer_index 80 true
    let s := { s with timer_1 := h }
    let s := s.call (.timerAttachInterrupt s.timer_1 f true)
    s.call (.timerAlarmWrite s.timer_1 period true)
  | 2 =>
    let (h, s) := s.timerBegin drv timer_index 80 true
    let s := { s with timer_2 := h }
    let s := s.call (.timerAttachInterrupt s.timer_2 f true)
    s.call (.timerAlarmWrite s.timer_2 period true)
  | 3 =>
    let (h, s) := s.timerBegin drv timer_index 80 true
    let s := { s with timer_3 := h }
    let s := s.call (.timerAttachInterrupt s.timer_3 f true)
    s.call (.timerAlarmWrite s.timer_3 period true)
  | _ => s

/-- Embedding of `startTimer`. -/
def startTimer (timer_index : Nat) (s : State) : State :=
  match timer_index with
  | 0 => s.call (.timerAlarmEnable s.timer_0)
  | 1 => s.call (.timerAlarmEnable s.timer_1)
  | 2 => s.call (.timerAlarmEnable s.timer_2)
  | 3 => s.call (.timerAlarmEnable s.timer_3)
  | _ => s

/-- Embedding of `stopTimer`. -/
def stopTimer (timer_index : Nat) (s : State) : State :=
  match timer_index with
  | 0 => s.call (.timerEnd s.timer_0)
  | 1 => s.call (.timerEnd s.timer_1)
  | 2 => s.call (.timerEnd s.timer_2)
  | 3 => s.call (.timerEnd s.timer_3)
  | _ => s

/-- Embedding of `changeTimerPeriod`. -/
def changeTimerPeriod (timer_index : Nat) (period : Nat) (s : State) : State :=
  match timer_index with
  | 0 => s.call (.timerAlarmWrite s.timer_0 period true)
  | 1 => s.call (.timerAlarmWrite s.timer_1 period true)
  | 2 => s.call (.timerAlarmWrite s.timer_2 period true)
  | 3 => s.call (.timerAlarmWrite s.timer_3 period true)
  | _ => s

/-- Embedding of `setUpDAC`. -/
def setUpDAC (channel : Nat) (s : State) : State :=
  if channel < 1 || channel > 2 then s
  else s.call (.dac_output_enable channel)

/-- Embedding of `writeToDAC`. -/
def writeToDAC (channel : Nat) (value : Nat) (s : State) : State :=
  if channel < 1 || channel > 2 then s
  else s.call (.dac_output_voltage channel value)

/-! ## Sample driver and state -/

/-- A driver whose `timerBegin` returns a non-null handle that depends on the
timer number and on the number of calls made before; used in witnesses. -/
def sampleDriver : Driver :=
  { timerBegin := fun tr num _ _ => 0x3FFB0000 + 16 * num + tr.length }

/-- A state in which the four handles hold four different non-null values. -/
def sampleState : State :=
  { timer_0 := 0x10, timer_1 := 0x20, timer_2 := 0x30, timer_3 := 0x40,
    trace := [.xt_ints_on 0xFFFFFFFF] }

/-! ## Auxiliary facts -/

@[simp] theorem State.trace_call (s : State) (c : DriverCall) :
    (s.call c).trace = s.trace ++ [c] := rfl

@[simp] theorem State.timer_0_call (s : State) (c : DriverCall) :
    (s.call c).timer_0 = s.timer_0 := rfl

@[simp] theorem State.timer_1_call (s : State) (c : DriverCall) :
    (s.call c).timer_1 = s.timer_1 := rfl

@[simp] theorem State.timer_2_call (s : State) (c : DriverCall) :
    (s.call c).timer_2 = s.timer_2 := rfl

@[simp] theorem State.timer_3_call (s : State) (c : DriverCall) :
    (s.call c).timer_3 = s.timer_3 := rfl

theorem State.sameHandles_refl (s : State) : s.sameHandles s := ⟨rfl, rfl, rfl, rfl⟩

theorem State.sameHandles_call (s : State) (c : DriverCall) : s.sameHandles (s.call c) :=
  ⟨rfl, rfl, rfl, rfl⟩

/-- A trace that gained a call differs from the trace before. -/
theorem trace_snoc_ne (l : List DriverCall) (c : DriverCall) : l ++ [c] ≠ l := by
  intro h
  have := congrArg List.length h
  simp at this

/-- On a finite frequency the guard of `setupPwm` is the negation of
`1 ≤ freq ≤ 312500 ∧ chan ≤ 15`. -/
theorem setupPwm_finite (chan : Nat) (q : ℚ) (s : State) :
    setupPwm chan (.finite q) s =
      if 1 ≤ q ∧ q ≤ 312500 ∧ chan ≤ 15 then s.call (.ledcSetup chan (.finite q) 8) else s := by
  unfold setupPwm
  by_cases h1 : 1 ≤ q <;> by_cases h2 : q ≤ 312500 <;> by_cases h3 : chan ≤ 15 <;>
    simp [Double.lt, Double.ofInt, h1, h2, h3, not_le.mp, not_lt.mpr]

theorem setUpDAC_eq (channel : Nat) (s : State) :
    setUpDAC channel s =
      if channel = 1 ∨ channel = 2 then s.call (.dac_output_enable channel) else s := by
  unfold setUpDAC
  by_cases h : channel = 1 ∨ channel = 2
  · rcases h with h | h <;> subst h <;> rfl
  · have h1 : channel < 1 ∨ channel > 2 := by omega
    rcases h1 with h1 | h1 <;> simp [h, h1]

theorem writeToDAC_eq (channel value : Nat) (s : State) :
    writeToDAC channel value s =
      if channel = 1 ∨ channel = 2 then s.call (.dac_output_voltage channel value) else s := by
  unfold writeToDAC
  by_cases h : channel = 1 ∨ channel = 2
  · rcases h with h | h <;> subst h <;> rfl
  · have h1 : channel < 1 ∨ channel > 2 := by omega
    rcases h1 with h1 | h1 <;> simp [h, h1]

/-- With an index above 3 the four timer functions take the `default` branch. -/
theorem setUpTimer_default (drv : Driver) (i : Nat) (f : Callback) (period : Nat) (s : State)
    (h : 3 < i) : setUpTimer drv i f period s = s := by
  obtain ⟨k, rfl⟩ : ∃ k, i = k + 4 := ⟨i - 4, by omega⟩
  rfl

theorem startTimer_default (i : Nat) (s : State) (h : 3 < i) : startTimer i s = s := by
  obtain ⟨k, rfl⟩ : ∃ k, i = k + 4 := ⟨i - 4, by omega⟩
  rfl

theorem stopTimer_default (i : Nat) (s : State) (h : 3 < i) : stopTimer i s = s := by
  obtain ⟨k, rfl⟩ : ∃ k, i = k + 4 := ⟨i - 4, by omega⟩
  rfl

theorem changeTimerPeriod_default (i : Nat) (period : Nat) (s : State) (h : 3 < i) :
    changeTimerPeriod i period s = s := by
  obtain ⟨k, rfl⟩ : ∃ k, i = k + 4 := ⟨i - 4, by omega⟩
  rfl

/-- With an index in `0..3` the three functions that read a handle pass the
content of the slot of that index to one driver routine. -/
theorem startTimer_valid (i : Nat) (s : State) (h : i ≤ 3) :
    startTimer i s = s.call (.timerAlarmEnable (s.slot i)) := by
  interval_cases i <;> rfl

theorem stopTimer_valid (i : Nat) (s : State) (h : i ≤ 3) :
    stopTimer i s = s.call (.timerEnd (s.slot i)) := by
  interval_cases i <;> rfl

theorem changeTimerPeriod_valid (i : Nat) (period : Nat) (s : State) (h : i ≤ 3) :
    changeTimerPeriod i period s = s.call (.timerAlarmWrite (s.slot i) period true) := by
  interval_cases i <;> rfl

theorem setUpTimer_valid_trace (drv : Driver) (i : Nat) (f : Callback) (period : Nat)
    (s : State) (h : i ≤ 3) :
    (setUpTimer drv i f period s).trace =
      s.trace ++ [.timerBegin i 80 true,
                  .timerAttachInterrupt (drv.timerBegin s.trace i 80 true) f true,
                  .timerAlarmWrite (drv.timerBegin s.trace i 80 true) period true] := by
  interval_cases i <;> simp [setUpTimer, State.timerBegin, State.call]

theorem setUpTimer_valid_slot (drv : Driver) (i : Nat) (f : Callback) (period : Nat)
    (s : State) (h : i ≤ 3) :
    (setUpTimer drv i f period s).slot i = drv.timerBegin s.trace i 80 true := by
  interval_cases i <;> rfl

theorem setUpTimer_valid_other (drv : Driver) (i : Nat) (f : Callback) (period : Nat)
    (s : State) (h : i ≤ 3) (j : Nat) (hj : j ≠ i) :
    (setUpTimer drv i f period s).slot j = s.slot j := by
  interval_cases i <;> rcases j with _ | _ | _ | _ | j <;>
    first
    | exact absurd rfl hj
    | rfl

theorem startTimer_sameHandles (i : Nat) (s : State) : s.sameHandles (startTimer i s) := by
  by_cases h : i ≤ 3
  · rw [startTimer_valid i s h]; exact s.sameHandles_call _
  · rw [startTimer_default i s (by omega)]; exact s.sameHandles_refl

theorem stopTimer_sameHandles (i : Nat) (s : State) : s.sameHandles (stopTimer i s) := by
  by_cases h : i ≤ 3
  · rw [stopTimer_valid i s h]; exact s.sameHandles_call _
  · rw [stopTimer_default i s (by omega)]; exact s.sameHandles_refl

theorem changeTimerPeriod_sameHandles (i period : Nat) (s : State) :
    s.sameHandles (changeTimerPeriod i period s) := by
  by_cases h : i ≤ 3
  · rw [changeTimerPeriod_valid i period s h]; exact s.sameHandles_call _
  · rw [changeTimerPeriod_default i period s (by omega)]; exact s.sameHandles_refl

theorem setupPwm_sameHandles (chan : Nat) (freq : Double) (s : State) :
    s.sameHandles (setupPwm chan freq s) := by
  unfold setupPwm
  split
  · exact s.sameHandles_refl
  · exact s.sameHandles_call _

theorem setPwmDuty_sameHandles (chan duty : Nat) (s : State) :
    s.sameHandles (setPwmDuty chan duty s) := by
  unfold setPwmDuty
  split
  · exact s.sameHandles_refl
  · exact s.sameHandles_call _

theorem pwmAttachPin_sameHandles (chan pin : Nat) (s : State) :
    s.sameHandles (pwmAttachPin chan pin s) := by
  unfold pwmAttachPin
  split
  · exact s.sameHandles_refl
  · exact s.sameHandles_call _

theorem pwmDetachPin_sameHandles (pin : Nat) (s : State) :
    s.sameHandles (pwmDetachPin pin s) := by
  unfold pwmDetachPin
  split
  · exact s.sameHandles_refl
  · exact s.sameHandles_call _

theorem setUpDAC_sameHandles (channel : Nat) (s : State) :
    s.sameHandles (setUpDAC channel s) := by
  unfold setUpDAC
  split
  · exact s.sameHandles_refl
  · exact s.sameHandles_call _

theorem writeToDAC_sameHandles (channel value : Nat) (s : State) :
    s.sameHandles (writeToDAC channel value s) := by
  unfold writeToDAC
  split
  · exact s.sameHandles_refl
  · exact s.sameHandles_call _

/-- A driver call changes no slot. -/
theorem State.slot_call (s : State) (c : DriverCall) (j : Nat) : (s.call c).slot j = s.slot j := by
  rcases j with _ | _ | _ | _ | j <;> rfl

/-! ## Interrupt masking -/

/-- C7: `blockInterrupts` makes exactly one driver call, `xt_ints_off(m)`, where
the argument `~(0b1 << 6)` converted to a 32-bit unsigned value is
`m = 0xFFFFFFBF`, a value below `2^32` whose bit `k` is set exactly for the
positions `k < 32` other than `6`; `unblockInterrupts` makes exactly one driver
call, `xt_ints_on(0xFFFFFFFF)`.  Neither touches anything else in the state. -/
theorem interrupt_mask_calls (s : State) :
    blockInterrupts s = s.call (.xt_ints_off 0xFFFFFFBF) ∧
    (blockInterrupts s).trace = s.trace ++ [.xt_ints_off 0xFFFFFFBF] ∧
    toUInt32 (intNot (intShl 0b1 6)) = 0xFFFFFFBF ∧
    (0xFFFFFFBF : Nat) = 2 ^ 32 - 1 - 2 ^ 6 ∧
    (∀ k : Nat, Nat.testBit 0xFFFFFFBF k = decide (k < 32 ∧ k ≠ 6)) ∧
    unblockInterrupts s = s.call (.xt_ints_on 0xFFFFFFFF) ∧
    (unblockInterrupts s).trace = s.trace ++ [.xt_ints_on 0xFFFFFFFF] := by
  have hm : toUInt32 (intNot (intShl 0b1 6)) = 0xFFFFFFBF := by decide
  refine ⟨?_, ?_, hm, by norm_num, ?_, rfl, rfl⟩
  · unfold blockInterrupts; rw [hm]
  · unfold blockInterrupts; rw [hm]; rfl
  · intro k
    by_cases hk : k < 32
    · interval_cases k <;> decide
    · have h32 : (0xFFFFFFBF : Nat) < 2 ^ k :=
        lt_of_lt_of_le (by norm_num) (Nat.pow_le_pow_right (by norm_num) (not_lt.mp hk))
      rw [Nat.testBit_lt_two_pow h32]
      simp [hk]

/-! ## PWM -/

/-- C1: for an 8-bit `chan` and a finite frequency `q`, `setupPwm` makes a driver
call if and only if `1 ≤ q ≤ 312500` and `chan ≤ 15`; in that case it adds
exactly the one call `ledcSetup(chan, q, 8)` to the trace, with `chan` and `q`
as received and a resolution of 8 bits, and otherwise the trace stays as it
was. -/
theorem setupPwm_driver_trace (chan : Nat) (q : ℚ) (s : State) (_hchan : isUInt8 chan) :
    ((setupPwm chan (.finite q) s).trace ≠ s.trace ↔ (1 ≤ q ∧ q ≤ 312500 ∧ chan ≤ 15)) ∧
    ((1 ≤ q ∧ q ≤ 312500 ∧ chan ≤ 15) →
      (setupPwm chan (.finite q) s).trace = s.trace ++ [.ledcSetup chan (.finite q) 8]) ∧
    (¬ (1 ≤ q ∧ q ≤ 312500 ∧ chan ≤ 15) → (setupPwm chan (.finite q) s).trace = s.trace) := by
  rw [setupPwm_finite]
  by_cases h : 1 ≤ q ∧ q ≤ 312500 ∧ chan ≤ 15
  · simp [h, trace_snoc_ne]
  · simp [h]

/-- Witness of C1: channel 3 at 1000 Hz is configured; 0 Hz, 312501 Hz and
channel 16 are not. -/
theorem setupPwm_driver_trace_witness :
    isUInt8 3 ∧ isUInt8 16 ∧
    (setupPwm 3 (.finite 1000) State.init).trace = [.ledcSetup 3 (.finite 1000) 8] ∧
    (setupPwm 3 (.finite 0) State.init).trace = [] ∧
    (setupPwm 3 (.finite 312501) State.init).trace = [] ∧
    (setupPwm 16 (.finite 1000) State.init).trace = [] :=
  ⟨by decide, by decide,
   (setupPwm_driver_trace 3 1000 State.init (by decide)).2.1 (by norm_num),
   (setupPwm_driver_trace 3 0 State.init (by decide)).2.2 (by norm_num),
   (setupPwm_driver_trace 3 312501 State.init (by decide)).2.2 (by norm_num),
   (setupPwm_driver_trace 16 1000 State.init (by decide)).2.2 (by norm_num)⟩

/-- C2 fails on the code: `pwmAttachPin` tests only `pin`, so with the 8-bit
channel 16 (above 15) and pin 0 it calls the driver, `ledcAttachPin(0, 16)`. -/
theorem pwmAttachPin_chan_unchecked :
    isUInt8 16 ∧ isUInt8 0 ∧ 16 > 15 ∧
    (pwmAttachPin 16 0 State.init).trace = [.ledcAttachPin 0 16] := by
  decide

/-- C8: an out-of-range PWM channel or pin is a no-op.  With `chan > 15`,
`setPwmDuty(chan, duty)` returns the state it received (no driver call); with
`pin > 39`, so do `pwmAttachPin(chan, pin)`, for every `chan`, and
`pwmDetachPin(pin)`. -/
theorem pwm_out_of_range_noop (chan duty pin : Nat) (s : State)
    (_hchan : isUInt8 chan) (_hduty : isUInt16 duty) (_hpin : isUInt8 pin) :
    (chan > 15 → setPwmDuty chan duty s = s ∧ (setPwmDuty chan duty s).trace = s.trace) ∧
    (pin > 39 → pwmAttachPin chan pin s = s ∧ (pwmAttachPin chan pin s).trace = s.trace) ∧
    (pin > 39 → pwmDetachPin pin s = s ∧ (pwmDetachPin pin s).trace = s.trace) := by
  refine ⟨fun h => ?_, fun h => ?_, fun h => ?_⟩
  · simp [setPwmDuty, h]
  · simp [pwmAttachPin, h]
  · simp [pwmDetachPin, h]

/-- Witness of C8: channel 16 and pin 40 from the initial state. -/
theorem pwm_out_of_range_noop_witness :
    isUInt8 16 ∧ isUInt16 128 ∧ isUInt8 40 ∧
    (setPwmDuty 16 128 State.init).trace = [] ∧
    (pwmAttachPin 16 40 State.init).trace = [] ∧
    (pwmDetachPin 40 State.init).trace = [] :=
  ⟨by decide, by decide, by decide,
   ((pwm_out_of_range_noop 16 128 40 State.init (by decide) (by decide) (by decide)).1
      (by decide)).2,
   ((pwm_out_of_range_noop 16 128 40 State.init (by decide) (by decide) (by decide)).2.1
      (by decide)).2,
   ((pwm_out_of_range_noop 16 128 40 State.init (by decide) (by decide) (by decide)).2.2
      (by decide)).2⟩

/-- C9 fails on the code: `setPwmDuty` tests only `chan`, so with channel 0 and
the 16-bit duty 256 (above 255) it calls the driver, `ledcWrite(0, 256)`. -/
theorem setPwmDuty_duty_unchecked :
    isUInt8 0 ∧ isUInt16 256 ∧ 256 > 255 ∧
    (setPwmDuty 0 256 State.init).trace = [.ledcWrite 0 256] := by
  decide

/-! ## Timers -/

/-- C3: with an 8-bit `timer_index > 3`, each of `setUpTimer`, `startTimer`,
`stopTimer` and `changeTimerPeriod` returns the state it received: no driver
call is added to the trace and the four handles keep their values. -/
theorem timer_invalid_index_noop (drv : Driver) (timer_index : Nat) (f : Callback)
    (period : Nat) (s : State)
    (_hidx : isUInt8 timer_index) (_hper : isUInt64 period) (h : timer_index > 3) :
    (setUpTimer drv timer_index f period s = s ∧
      (setUpTimer drv timer_index f period s).trace = s.trace ∧
      s.sameHandles (setUpTimer drv timer_index f period s)) ∧
    (startTimer timer_index s = s ∧
      (startTimer timer_index s).trace = s.trace ∧
      s.sameHandles (startTimer timer_index s)) ∧
    (stopTimer timer_index s = s ∧
      (stopTimer timer_index s).trace = s.trace ∧
      s.sameHandles (stopTimer timer_index s)) ∧
    (changeTimerPeriod timer_index period s = s ∧
      (changeTimerPeriod timer_index period s).trace = s.trace ∧
      s.sameHandles (changeTimerPeriod timer_index period s)) := by
  rw [setUpTimer_default drv timer_index f period s h, startTimer_default timer_index s h,
    stopTimer_default timer_index s h, changeTimerPeriod_default timer_index period s h]
  exact ⟨⟨rfl, rfl, s.sameHandles_refl⟩, ⟨rfl, rfl, s.sameHandles_refl⟩,
    ⟨rfl, rfl, s.sameHandles_refl⟩, ⟨rfl, rfl, s.sameHandles_refl⟩⟩

/-- Witness of C3: index 4 on a state with four live handles. -/
theorem timer_invalid_index_noop_witness :
    isUInt8 4 ∧ isUInt64 1000 ∧ 4 > 3 ∧
    setUpTimer sampleDriver 4 7 1000 sampleState = sampleState ∧
    startTimer 4 sampleState = sampleState ∧
    stopTimer 4 sampleState = sampleState ∧
    changeTimerPeriod 4 1000 sampleState = sampleState :=
  ⟨by decide, by decide, by decide,
   (timer_invalid_index_noop sampleDriver 4 7 1000 sampleState
      (by decide) (by decide) (by decide)).1.1,
   (timer_invalid_index_noop sampleDriver 4 7 1000 sampleState
      (by decide) (by decide) (by decide)).2.1.1,
   (timer_invalid_index_noop sampleDriver 4 7 1000 sampleState
      (by decide) (by decide) (by decide)).2.2.1.1,
   (timer_invalid_index_noop sampleDriver 4 7 1000 sampleState
      (by decide) (by decide) (by decide)).2.2.2.1⟩

/-- C4: for `i` in `0..3`, `setUpTimer(i, f, period)` adds to the trace exactly
`timerBegin(i, 80, true)`, `timerAttachInterrupt(h, f, true)` and
`timerAlarmWrite(h, period, true)`, in that order, where `h` is the handle that
this `timerBegin` call returned; afterwards slot `i` holds `h` and every other
slot holds what it held before. -/
theorem setUpTimer_valid_index (drv : Driver) (i : Nat) (f : Callback) (period : Nat)
    (s : State) (hi : i ≤ 3) (_hper : isUInt64 period) :
    (setUpTimer drv i f period s).trace =
      s.trace ++ [.timerBegin i 80 true,
                  .timerAttachInterrupt (drv.timerBegin s.trace i 80 true) f true,
                  .timerAlarmWrite (drv.timerBegin s.trace i 80 true) period true] ∧
    (setUpTimer drv i f period s).slot i = drv.timerBegin s.trace i 80 true ∧
    (∀ j : Nat, j ≠ i → (setUpTimer drv i f period s).slot j = s.slot j) :=
  ⟨setUpTimer_valid_trace drv i f period s hi, setUpTimer_valid_slot drv i f period s hi,
   setUpTimer_valid_other drv i f period s hi⟩

/-- Witness of C4: timer 2 set up on a state with four live handles and one
earlier driver call. -/
theorem setUpTimer_valid_index_witness :
    2 ≤ 3 ∧ isUInt64 1000 ∧
    (setUpTimer sampleDriver 2 7 1000 sampleState).trace =
      [.xt_ints_on 0xFFFFFFFF, .timerBegin 2 80 true,
       .timerAttachInterrupt 0x3FFB0021 7 true, .timerAlarmWrite 0x3FFB0021 1000 true] ∧
    (setUpTimer sampleDriver 2 7 1000 sampleState).slot 2 = 0x3FFB0021 ∧
    (setUpTimer sampleDriver 2 7 1000 sampleState).slot 0 = 0x10 ∧
    (setUpTimer sampleDriver 2 7 1000 sampleState).slot 1 = 0x20 ∧
    (setUpTimer sampleDriver 2 7 1000 sampleState).slot 3 = 0x40 :=
  ⟨by decide, by decide,
   (setUpTimer_valid_index sampleDriver 2 7 1000 sampleState (by decide) (by decide)).1,
   (setUpTimer_valid_index sampleDriver 2 7 1000 sampleState (by decide) (by decide)).2.1,
   (setUpTimer_valid_index sampleDriver 2 7 1000 sampleState (by decide) (by decide)).2.2 0
     (by decide),
   (setUpTimer_valid_index sampleDriver 2 7 1000 sampleState (by decide) (by decide)).2.2 1
     (by decide),
   (setUpTimer_valid_index sampleDriver 2 7 1000 sampleState (by decide) (by decide)).2.2 3
     (by decide)⟩

/-- C5: for `i` in `0..3` and every state, `startTimer(i)` adds exactly the call
`timerAlarmEnable(h_i)`, `stopTimer(i)` exactly `timerEnd(h_i)` and
`changeTimerPeriod(i, period)` exactly `timerAlarmWrite(h_i, period, true)`,
where `h_i` is the content of slot `i`.  The call is made whatever the slot
holds: from the initial state the argument is `NULL`.  The calls do not depend
on the other slots: two states with the same trace and the same slot `i` give
the same trace. -/
theorem timer_valid_index_dispatch (i : Nat) (period : Nat) (s : State)
    (hi : i ≤ 3) (_hper : isUInt64 period) :
    ((startTimer i s).trace = s.trace ++ [.timerAlarmEnable (s.slot i)] ∧
      (stopTimer i s).trace = s.trace ++ [.timerEnd (s.slot i)] ∧
      (changeTimerPeriod i period s).trace =
        s.trace ++ [.timerAlarmWrite (s.slot i) period true]) ∧
    ((startTimer i State.init).trace = [.timerAlarmEnable NULL] ∧
      (stopTimer i State.init).trace = [.timerEnd NULL] ∧
      (changeTimerPeriod i period State.init).trace = [.timerAlarmWrite NULL period true]) ∧
    (∀ t : State, t.trace = s.trace → t.slot i = s.slot i →
      (startTimer i t).trace = (startTimer i s).trace ∧
      (stopTimer i t).trace = (stopTimer i s).trace ∧
      (changeTimerPeriod i period t).trace = (changeTimerPeriod i period s).trace) := by
  have hinit : State.init.slot i = NULL := by interval_cases i <;> rfl
  refine ⟨?_, ?_, ?_⟩
  · rw [startTimer_valid i s hi, stopTimer_valid i s hi, changeTimerPeriod_valid i period s hi]
    exact ⟨rfl, rfl, rfl⟩
  · rw [startTimer_valid i _ hi, stopTimer_valid i _ hi, changeTimerPeriod_valid i period _ hi,
      hinit]
    exact ⟨rfl, rfl, rfl⟩
  · intro t ht hs
    rw [startTimer_valid i s hi, stopTimer_valid i s hi, changeTimerPeriod_valid i period s hi,
      startTimer_valid i t hi, stopTimer_valid i t hi, changeTimerPeriod_valid i period t hi]
    simp [ht, hs]

/-- Witness of C5: index 1 on a state whose slot 1 holds `0x20` while the other
slots hold other values. -/
theorem timer_valid_index_dispatch_witness :
    1 ≤ 3 ∧ isUInt64 500 ∧
    (startTimer 1 sampleState).trace = [.xt_ints_on 0xFFFFFFFF, .timerAlarmEnable 0x20] ∧
    (stopTimer 1 sampleState).trace = [.xt_ints_on 0xFFFFFFFF, .timerEnd 0x20] ∧
    (changeTimerPeriod 1 500 sampleState).trace =
      [.xt_ints_on 0xFFFFFFFF, .timerAlarmWrite 0x20 500 true] ∧
    (startTimer 1 State.init).trace = [.timerAlarmEnable NULL] :=
  ⟨by decide, by decide,
   (timer_valid_index_dispatch 1 500 sampleState (by decide) (by decide)).1.1,
   (timer_valid_index_dispatch 1 500 sampleState (by decide) (by decide)).1.2.1,
   (timer_valid_index_dispatch 1 500 sampleState (by decide) (by decide)).1.2.2,
   (timer_valid_index_dispatch 1 500 sampleState (by decide) (by decide)).2.1.1⟩

/-! ## DAC -/

/-- C6: for 8-bit `channel` and `value`, `setUpDAC(channel)` makes a driver call
if and only if `channel` is 1 or 2, and then adds exactly
`dac_output_enable(channel)`; `writeToDAC(channel, value)` makes a driver call
if and only if `channel` is 1 or 2, and then adds exactly
`dac_output_voltage(channel, value)`; for every other channel the trace stays
as it was. -/
theorem dac_driver_trace (channel value : Nat) (s : State)
    (_hchannel : isUInt8 channel) (_hvalue : isUInt8 value) :
    (((setUpDAC channel s).trace ≠ s.trace ↔ (channel = 1 ∨ channel = 2)) ∧
      ((channel = 1 ∨ channel = 2) →
        (setUpDAC channel s).trace = s.trace ++ [.dac_output_enable channel]) ∧
      (¬ (channel = 1 ∨ channel = 2) → (setUpDAC channel s).trace = s.trace)) ∧
    (((writeToDAC channel value s).trace ≠ s.trace ↔ (channel = 1 ∨ channel = 2)) ∧
      ((channel = 1 ∨ channel = 2) →
        (writeToDAC channel value s).trace = s.trace ++ [.dac_output_voltage channel value]) ∧
      (¬ (channel = 1 ∨ channel = 2) → (writeToDAC channel value s).trace = s.trace)) := by
  rw [setUpDAC_eq, writeToDAC_eq]
  by_cases h : channel = 1 ∨ channel = 2
  · simp [h, trace_snoc_ne]
  · simp [h]

/-- Witness of C6: channels 1 and 2 reach the driver, channels 0 and 3 do
not. -/
theorem dac_driver_trace_witness :
    isUInt8 0 ∧ isUInt8 1 ∧ isUInt8 2 ∧ isUInt8 3 ∧ isUInt8 200 ∧
    (setUpDAC 1 State.init).trace = [.dac_output_enable 1] ∧
    (writeToDAC 2 200 State.init).trace = [.dac_output_voltage 2 200] ∧
    (setUpDAC 0 State.init).trace = [] ∧
    (writeToDAC 3 200 State.init).trace = [] :=
  ⟨by decide, by decide, by decide, by decide, by decide,
   (dac_driver_trace 1 200 State.init (by decide) (by decide)).1.2.1 (by decide),
   (dac_driver_trace 2 200 State.init (by decide) (by decide)).2.2.1 (by decide),
   (dac_driver_trace 0 200 State.init (by decide) (by decide)).1.2.2 (by decide),
   (dac_driver_trace 3 200 State.init (by decide) (by decide)).2.2.2 (by decide)⟩

/-! ## Frame of the timer handles -/

/-- C10: only `setUpTimer` with an index in `0..3` changes a timer handle.  For
every state and all arguments, `startTimer`, `stopTimer`, `changeTimerPeriod`,
`setupPwm`, `setPwmDuty`, `pwmAttachPin`, `pwmDetachPin`, `setUpDAC`,
`writeToDAC`, `blockInterrupts` and `unblockInterrupts` leave the four slots as
they were, and so does `setUpTimer` with an index above 3.  For `i` in `0..3`,
after `setUpTimer(i, f, p)` and then `stopTimer(i)`, the handle `h` returned by
`timerBegin` was passed to `timerEnd` and slot `i` still holds `h` (it is not
set back to `NULL` when `h` is not `NULL`), so a following `startTimer(i)`
calls `timerAlarmEnable(h)` and a following `changeTimerPeriod(i, q)` calls
`timerAlarmWrite(h, q, true)`. -/
theorem handles_frame (drv : Driver) (i : Nat) (f : Callback) (p q : Nat)
    (chan duty pin channel value : Nat) (freq : Double) (s : State) :
    (s.sameHandles (startTimer i s) ∧ s.sameHandles (stopTimer i s) ∧
      s.sameHandles (changeTimerPeriod i p s) ∧ s.sameHandles (setupPwm chan freq s) ∧
      s.sameHandles (setPwmDuty chan duty s) ∧ s.sameHandles (pwmAttachPin chan pin s) ∧
      s.sameHandles (pwmDetachPin pin s) ∧ s.sameHandles (setUpDAC channel s) ∧
      s.sameHandles (writeToDAC channel value s) ∧ s.sameHandles (blockInterrupts s) ∧
      s.sameHandles (unblockInterrupts s)) ∧
    (3 < i → s.sameHandles (setUpTimer drv i f p s)) ∧
    (i ≤ 3 →
      (stopTimer i (setUpTimer drv i f p s)).trace =
        (setUpTimer drv i f p s).trace ++ [.timerEnd (drv.timerBegin s.trace i 80 true)] ∧
      (stopTimer i (setUpTimer drv i f p s)).slot i = drv.timerBegin s.trace i 80 true ∧
      (drv.timerBegin s.trace i 80 true ≠ NULL →
        (stopTimer i (setUpTimer drv i f p s)).slot i ≠ NULL) ∧
      (startTimer i (stopTimer i (setUpTimer drv i f p s))).trace =
        (stopTimer i (setUpTimer drv i f p s)).trace ++
          [.timerAlarmEnable (drv.timerBegin s.trace i 80 true)] ∧
      (changeTimerPeriod i q (stopTimer i (setUpTimer drv i f p s))).trace =
        (stopTimer i (setUpTimer drv i f p s)).trace ++
          [.timerAlarmWrite (drv.timerBegin s.trace i 80 true) q true]) := by
  refine ⟨⟨startTimer_sameHandles i s, stopTimer_sameHandles i s,
    changeTimerPeriod_sameHandles i p s, setupPwm_sameHandles chan freq s,
    setPwmDuty_sameHandles chan duty s, pwmAttachPin_sameHandles chan pin s,
    pwmDetachPin_sameHandles pin s, setUpDAC_sameHandles channel s,
    writeToDAC_sameHandles channel value s, s.sameHandles_call _, s.sameHandles_call _⟩,
    fun h => ?_, fun h => ?_⟩
  · rw [setUpTimer_default drv i f p s h]; exact s.sameHandles_refl
  · have hslot : (stopTimer i (setUpTimer drv i f p s)).slot i =
        drv.timerBegin s.trace i 80 true := by
      rw [stopTimer_valid i _ h, State.slot_call, setUpTimer_valid_slot drv i f p s h]
    refine ⟨?_, hslot, fun hne => by rw [hslot]; exact hne, ?_, ?_⟩
    · rw [stopTimer_valid i _ h, setUpTimer_valid_slot drv i f p s h]; rfl
    · rw [startTimer_valid i _ h, hslot]; rfl
    · rw [changeTimerPeriod_valid i q _ h, hslot]; rfl

/-- Witness of C10: timer 0 is set up, stopped, and started again from the
initial state; the stale handle reaches `timerAlarmEnable`. -/
theorem handles_frame_witness :
    (3 < 4 → sampleState.sameHandles (setUpTimer sampleDriver 4 7 1000 sampleState)) ∧
    (stopTimer 0 (setUpTimer sampleDriver 0 7 1000 State.init)).slot 0 = 0x3FFB0000 ∧
    (startTimer 0 (stopTimer 0 (setUpTimer sampleDriver 0 7 1000 State.init))).trace =
      [.timerBegin 0 80 true, .timerAttachInterrupt 0x3FFB0000 7 true,
       .timerAlarmWrite 0x3FFB0000 1000 true, .timerEnd 0x3FFB0000,
       .timerAlarmEnable 0x3FFB0000] :=
  ⟨(handles_frame sampleDriver 4 7 1000 2000 0 0 0 0 0 .nan sampleState).2.1,
   ((handles_frame sampleDriver 0 7 1000 2000 0 0 0 0 0 .nan State.init).2.2 (by decide)).2.1,
   ((handles_frame sampleDriver 0 7 1000 2000 0 0 0 0 0 .nan State.init).2.2
      (by decide)).2.2.2.1⟩

end HAL
